import Mathlib

/-!
Verification of the `fn-ptr` crate's ABI taxonomy and type-level
substitution algebra, as a shallow embedding of the Rust source.

The embedding covers:
* `AbiValue` (src/abi_value.rs): the 21-value calling-convention
  descriptor, its canonical string form, the two parsers
  (`from_str_const` and the `FromStr` impl), `allows_unwind`, and
  target canonicalization `canonize`.
* the marker types of src/marker.rs (`Abi` markers with their `STR`
  and `VALUE` constants, `Safe`/`Unsafe`).
* the reflected function-pointer universe of src/base.rs and
  src/impl.rs: each reflected type is determined by its
  (safety, abi, args, output) attribute tuple, which the library's
  docs state is a bijection onto the syntactic pointer types, so a
  reflected type is embedded as that tuple.
* the substitution algebra of src/build.rs (`BuildFn` and the
  `WithArgs` / `WithOutput` / `WithSafety` / `WithAbi` impls derived
  from it).
-/

/-- Runtime calling-convention descriptor, from `enum AbiValue` in
src/abi_value.rs.  `Rust` carries no payload; the other ten variants
carry one `unwind` boolean. -/
inductive AbiValue : Type
  | C (unwind : Bool)
  | System (unwind : Bool)
  | Rust
  | Aapcs (unwind : Bool)
  | Cdecl (unwind : Bool)
  | Stdcall (unwind : Bool)
  | Fastcall (unwind : Bool)
  | Thiscall (unwind : Bool)
  | Vectorcall (unwind : Bool)
  | SysV64 (unwind : Bool)
  | Win64 (unwind : Bool)
  deriving DecidableEq, Repr, Fintype

/-- `AbiValue::to_str`: the canonical token of each of the 21 values,
from the `abi_kind_impl!` invocation in src/abi_value.rs. -/
def AbiValue.toStr : AbiValue → String
  | .Rust => "Rust"
  | .C false => "C"
  | .C true => "C-unwind"
  | .System false => "system"
  | .System true => "system-unwind"
  | .Aapcs false => "aapcs"
  | .Aapcs true => "aapcs-unwind"
  | .Cdecl false => "cdecl"
  | .Cdecl true => "cdecl-unwind"
  | .Stdcall false => "stdcall"
  | .Stdcall true => "stdcall-unwind"
  | .Fastcall false => "fastcall"
  | .Fastcall true => "fastcall-unwind"
  | .Thiscall false => "thiscall"
  | .Thiscall true => "thiscall-unwind"
  | .Vectorcall false => "vectorcall"
  | .Vectorcall true => "vectorcall-unwind"
  | .SysV64 false => "sysv64"
  | .SysV64 true => "sysv64-unwind"
  | .Win64 false => "win64"
  | .Win64 true => "win64-unwind"

/-- `AbiValue::from_str_const`: the const-context parser, a chain of
`konst::eq_str` comparisons against the token table in declaration
order (src/abi_value.rs). -/
def AbiValue.fromStrConst (conv : String) : Option AbiValue :=
  if conv = "Rust" then some .Rust
  else if conv = "C" then some (.C false)
  else if conv = "C-unwind" then some (.C true)
  else if conv = "system" then some (.System false)
  else if conv = "system-unwind" then some (.System true)
  else if conv = "aapcs" then some (.Aapcs false)
  else if conv = "aapcs-unwind" then some (.Aapcs true)
  else if conv = "cdecl" then some (.Cdecl false)
  else if conv = "cdecl-unwind" then some (.Cdecl true)
  else if conv = "stdcall" then some (.Stdcall false)
  else if conv = "stdcall-unwind" then some (.Stdcall true)
  else if conv = "fastcall" then some (.Fastcall false)
  else if conv = "fastcall-unwind" then some (.Fastcall true)
  else if conv = "thiscall" then some (.Thiscall false)
  else if conv = "thiscall-unwind" then some (.Thiscall true)
  else if conv = "vectorcall" then some (.Vectorcall false)
  else if conv = "vectorcall-unwind" then some (.Vectorcall true)
  else if conv = "sysv64" then some (.SysV64 false)
  else if conv = "sysv64-unwind" then some (.SysV64 true)
  else if conv = "win64" then some (.Win64 false)
  else if conv = "win64-unwind" then some (.Win64 true)
  else none

/-- The `FromStr` impl for `AbiValue` (src/abi_value.rs): a `match` on
the same string-literal patterns, `Err(())` on fall-through.  A Rust
`match` over distinct string literals selects the first (unique)
matching arm, embedded here as the equality chain in arm order. -/
def AbiValue.fromStrRes (s : String) : Except Unit AbiValue :=
  if s = "Rust" then .ok .Rust
  else if s = "C" then .ok (.C false)
  else if s = "C-unwind" then .ok (.C true)
  else if s = "system" then .ok (.System false)
  else if s = "system-unwind" then .ok (.System true)
  else if s = "aapcs" then .ok (.Aapcs false)
  else if s = "aapcs-unwind" then .ok (.Aapcs true)
  else if s = "cdecl" then .ok (.Cdecl false)
  else if s = "cdecl-unwind" then .ok (.Cdecl true)
  else if s = "stdcall" then .ok (.Stdcall false)
  else if s = "stdcall-unwind" then .ok (.Stdcall true)
  else if s = "fastcall" then .ok (.Fastcall false)
  else if s = "fastcall-unwind" then .ok (.Fastcall true)
  else if s = "thiscall" then .ok (.Thiscall false)
  else if s = "thiscall-unwind" then .ok (.Thiscall true)
  else if s = "vectorcall" then .ok (.Vectorcall false)
  else if s = "vectorcall-unwind" then .ok (.Vectorcall true)
  else if s = "sysv64" then .ok (.SysV64 false)
  else if s = "sysv64-unwind" then .ok (.SysV64 true)
  else if s = "win64" then .ok (.Win64 false)
  else if s = "win64-unwind" then .ok (.Win64 true)
  else .error ()

/-- `AbiValue::allows_unwind` (src/abi_value.rs): `true` for `Rust`,
otherwise the `unwind` payload. -/
def AbiValue.allowsUnwind : AbiValue → Bool
  | .Rust => true
  | .C unwind => unwind
  | .System unwind => unwind
  | .Aapcs unwind => unwind
  | .Cdecl unwind => unwind
  | .Stdcall unwind => unwind
  | .Fastcall unwind => unwind
  | .Thiscall unwind => unwind
  | .Vectorcall unwind => unwind
  | .SysV64 unwind => unwind
  | .Win64 unwind => unwind

/-- The target-configuration facts `canonize` consults via `cfg!`
(src/abi_value.rs lines 101-108). -/
structure Target where
  os_windows : Bool
  os_vexos : Bool
  arch_x86 : Bool
  arch_x86_64 : Bool
  arch_arm : Bool
  arch_aarch64 : Bool
  deriving DecidableEq, Repr

/-- `arch_arm_any` in `canonize`. -/
def Target.arch_arm_any (t : Target) : Bool :=
  t.arch_arm || t.arch_aarch64

/-- `AbiValue::canonize(self, has_c_varargs)` (src/abi_value.rs):
the guarded `match` evaluated top-to-bottom, with the target `cfg!`
constants made explicit as a `Target` argument.  The `Cdecl` case
keeps the source's two (identical) arms. -/
def AbiValue.canonize (t : Target) (v : AbiValue) (has_c_varargs : Bool) :
    Option AbiValue :=
  match v with
  | .C unwind => some (.C unwind)
  | .Rust => some .Rust
  | .System unwind =>
      if t.arch_x86 && t.os_windows && !has_c_varargs then some (.Stdcall unwind)
      else if t.arch_arm && t.os_vexos then some (.Aapcs unwind)
      else some (.C unwind)
  | .Aapcs unwind =>
      if t.arch_arm_any then some (.Aapcs unwind) else none
  | .Cdecl unwind =>
      if t.arch_x86 then some (.C unwind) else some (.C unwind)
  | .Fastcall unwind =>
      if t.arch_x86 then some (.Fastcall unwind)
      else if t.os_windows then some (.C unwind)
      else none
  | .Stdcall unwind =>
      if t.arch_x86 then some (.Stdcall unwind)
      else if t.os_windows then some (.C unwind)
      else none
  | .Thiscall unwind =>
      if t.arch_x86 then some (.Thiscall unwind) else none
  | .Vectorcall unwind =>
      if t.arch_x86 || t.arch_x86_64 then some (.Vectorcall unwind) else none
  | .SysV64 unwind =>
      if t.arch_x86_64 then some (.SysV64 unwind) else none
  | .Win64 unwind =>
      if t.arch_x86_64 then some (.Win64 unwind) else none

/-- The `unwind` payload of a value: `none` for `Rust`, `some u` for
the ten payload-bearing variants. -/
def AbiValue.payloadOf : AbiValue → Option Bool
  | .Rust => none
  | .C unwind => some unwind
  | .System unwind => some unwind
  | .Aapcs unwind => some unwind
  | .Cdecl unwind => some unwind
  | .Stdcall unwind => some unwind
  | .Fastcall unwind => some unwind
  | .Thiscall unwind => some unwind
  | .Vectorcall unwind => some unwind
  | .SysV64 unwind => some unwind
  | .Win64 unwind => some unwind

/-- The 21 ABI marker types of src/marker.rs (one empty type per
`AbiValue`). -/
inductive AbiMarker : Type
  | C
  | CUnwind
  | System
  | SystemUnwind
  | Rust
  | Aapcs
  | AapcsUnwind
  | Cdecl
  | CdeclUnwind
  | Stdcall
  | StdcallUnwind
  | Fastcall
  | FastcallUnwind
  | Thiscall
  | ThiscallUnwind
  | Vectorcall
  | VectorcallUnwind
  | SysV64
  | SysV64Unwind
  | Win64
  | Win64Unwind
  deriving DecidableEq, Repr, Fintype

/-- The `STR` constant of each marker: the literal passed to
`define_abi_marker!` in src/marker.rs. -/
def AbiMarker.str : AbiMarker → String
  | .C => "C"
  | .CUnwind => "C-unwind"
  | .System => "system"
  | .SystemUnwind => "system-unwind"
  | .Rust => "Rust"
  | .Aapcs => "aapcs"
  | .AapcsUnwind => "aapcs-unwind"
  | .Cdecl => "cdecl"
  | .CdeclUnwind => "cdecl-unwind"
  | .Stdcall => "stdcall"
  | .StdcallUnwind => "stdcall-unwind"
  | .Fastcall => "fastcall"
  | .FastcallUnwind => "fastcall-unwind"
  | .Thiscall => "thiscall"
  | .ThiscallUnwind => "thiscall-unwind"
  | .Vectorcall => "vectorcall"
  | .VectorcallUnwind => "vectorcall-unwind"
  | .SysV64 => "sysv64"
  | .SysV64Unwind => "sysv64-unwind"
  | .Win64 => "win64"
  | .Win64Unwind => "win64-unwind"

/-- `from_str_const(STR)` succeeds on every marker's token, so the
`unwrap()` in `define_abi_marker!` never panics. -/
theorem markerStr_parses (m : AbiMarker) :
    (AbiValue.fromStrConst m.str).isSome = true := by
  cases m <;> decide

/-- The `VALUE` constant of each marker (src/marker.rs):
`Abi::from_str_const(STR).unwrap()`. -/
def AbiMarker.value (m : AbiMarker) : AbiValue :=
  (AbiValue.fromStrConst m.str).get (markerStr_parses m)

/-- The two safety marker types `Safe` / `Unsafe` of src/safety.rs. -/
inductive SafetyM : Type
  | Safe
  | Unsafe
  deriving DecidableEq, Repr

/-- The `IS_SAFE` constant of the `Safety` trait (src/safety.rs):
`true` for `Safe`, `false` for `Unsafe`. -/
def SafetyM.isSafeConst : SafetyM → Bool
  | .Safe => true
  | .Unsafe => false

/-- A reflected function-pointer type.  Section 3.4 of the library's
design (and the associated-type constraints of `FnPtr` in
src/base.rs) make the reflected universe a bijection between
syntactic pointer types and (safety, abi, args, output) attribute
tuples, so a reflected type is embedded as that tuple.  `τ` is the
type of Rust type expressions occurring as parameters and results;
the args tuple is its parameter list. -/
structure FnPtrTy (τ : Type) where
  safety : SafetyM
  abi : AbiMarker
  args : List τ
  output : τ
  deriving DecidableEq, Repr

/-- `BuildFn` (src/build.rs): constructs the function-pointer type
from an args tuple, a safety marker, an ABI marker and an output
type.  Its associated type is constrained to
`FnPtr<Args = Self, Output = Output, Safety = Safety, Abi = Abi>`,
which under the universe bijection is exactly the attribute tuple. -/
def buildFn {τ : Type} (args : List τ) (safety : SafetyM) (abi : AbiMarker)
    (output : τ) : FnPtrTy τ :=
  ⟨safety, abi, args, output⟩

/-- `impl WithArgs<Args> for G` (src/build.rs line 31):
`BuildFn<G::Safety, G::Abi, G::Output>` applied to the new args. -/
def withArgs {τ : Type} (newArgs : List τ) (G : FnPtrTy τ) : FnPtrTy τ :=
  buildFn newArgs G.safety G.abi G.output

/-- `impl WithOutput<Output> for G` (src/build.rs line 35). -/
def withOutput {τ : Type} (newOutput : τ) (G : FnPtrTy τ) : FnPtrTy τ :=
  buildFn G.args G.safety G.abi newOutput

/-- `impl WithSafety<Safety> for G` (src/build.rs line 42). -/
def withSafety {τ : Type} (newSafety : SafetyM) (G : FnPtrTy τ) : FnPtrTy τ :=
  buildFn G.args newSafety G.abi G.output

/-- `impl WithAbi<Abi> for G` (src/build.rs line 49). -/
def withAbi {τ : Type} (newAbi : AbiMarker) (G : FnPtrTy τ) : FnPtrTy τ :=
  buildFn G.args G.safety newAbi G.output

/-- One attribute substitution, for stating order-independence of
sequences of the four `With*` substitutions. -/
inductive Subst (τ : Type) : Type
  | abi (A : AbiMarker)
  | safety (S : SafetyM)
  | args (T : List τ)
  | output (R : τ)

/-- Apply one substitution. -/
def applySubst {τ : Type} : Subst τ → FnPtrTy τ → FnPtrTy τ
  | .abi A, F => withAbi A F
  | .safety S, F => withSafety S F
  | .args T, F => withArgs T F
  | .output R, F => withOutput R F

/-- Apply a sequence of substitutions, left to right. -/
def applySubsts {τ : Type} (l : List (Subst τ)) (F : FnPtrTy τ) : FnPtrTy τ :=
  l.foldl (fun G s => applySubst s G) F

/-- The final safety attribute after a sequence of substitutions. -/
def finalSafety {τ : Type} (l : List (Subst τ)) (s₀ : SafetyM) : SafetyM :=
  l.foldl (fun acc s => match s with | .safety S => S | _ => acc) s₀

/-- The final ABI attribute after a sequence of substitutions. -/
def finalAbi {τ : Type} (l : List (Subst τ)) (a₀ : AbiMarker) : AbiMarker :=
  l.foldl (fun acc s => match s with | .abi A => A | _ => acc) a₀

/-- The final args attribute after a sequence of substitutions. -/
def finalArgs {τ : Type} (l : List (Subst τ)) (t₀ : List τ) : List τ :=
  l.foldl (fun acc s => match s with | .args T => T | _ => acc) t₀

/-- The final output attribute after a sequence of substitutions. -/
def finalOutput {τ : Type} (l : List (Subst τ)) (r₀ : τ) : τ :=
  l.foldl (fun acc s => match s with | .output R => R | _ => acc) r₀

/-- The `ARITY` constant emitted by the impl generator (src/impl.rs
`@count`): one per argument type, i.e. the length of the args tuple. -/
def arityConst {τ : Type} (F : FnPtrTy τ) : Nat :=
  F.args.length

/-- The `IS_SAFE` constant: `<Self::Safety as Safety>::IS_SAFE`
(src/base.rs), i.e. the safety marker's constant. -/
def isSafeConst {τ : Type} (F : FnPtrTy τ) : Bool :=
  F.safety.isSafeConst

/-- The `IS_EXTERN` flag the impl generator passes for an ABI row
(src/impl.rs): the Rust-ABI rows pass `false`, every `extern "..."`
row passes `true`. -/
def isExternRow : AbiMarker → Bool
  | .Rust => false
  | _ => true

/-- The `IS_EXTERN` constant of a reflected type: the flag of its ABI
row. -/
def isExternConst {τ : Type} (F : FnPtrTy τ) : Bool :=
  isExternRow F.abi

/-- The `ABI` constant: `<Self::Abi as Abi>::VALUE` (src/base.rs). -/
def abiConst {τ : Type} (F : FnPtrTy τ) : AbiValue :=
  F.abi.value

/-- `fn_ptr::arity::<F>()` (src/lib.rs): returns `F::ARITY`. -/
def arityProj {τ : Type} (F : FnPtrTy τ) : Nat :=
  arityConst F

/-- `fn_ptr::is_safe::<F>()` (src/lib.rs): returns `F::IS_SAFE`. -/
def isSafeProj {τ : Type} (F : FnPtrTy τ) : Bool :=
  isSafeConst F

/-- `fn_ptr::is_unsafe::<F>()` (src/lib.rs): `!is_safe::<F>()`. -/
def isUnsafeProj {τ : Type} (F : FnPtrTy τ) : Bool :=
  !isSafeProj F

/-- `fn_ptr::is_extern::<F>()` (src/lib.rs): returns `F::IS_EXTERN`. -/
def isExternProj {τ : Type} (F : FnPtrTy τ) : Bool :=
  isExternConst F

/-- `fn_ptr::abi::<F>()` (src/lib.rs): returns `F::ABI`. -/
def abiProj {τ : Type} (F : FnPtrTy τ) : AbiValue :=
  abiConst F

/-- Modelled from the spec: the concrete `FnPtr::from_ptr` impl bodies
are absent from src (src/base.rs only declares the method and the
generator in src/impl.rs targets an older trait without it).  Per the
spec's error-handling design, the operation asserts its argument is
non-null and aborts on null; a function-pointer value is modelled by
its address, abort by `none`. -/
def from_ptr (ptr : Nat) : Option Nat :=
  if ptr = 0 then none else some ptr

/-- `FnPtr::from_addr` (src/base.rs): casts the address to a pointer
and delegates to `from_ptr`.  On the address model the cast is the
identity. -/
def from_addr (addr : Nat) : Option Nat :=
  from_ptr addr

/-- The `Option` result of the const parser read as the `Result` of
the `FromStr` impl, for comparing the two parsers. -/
def optionAsResult (o : Option AbiValue) : Except Unit AbiValue :=
  match o with
  | some v => .ok v
  | none => .error ()

/- Helper lemmas shared by the claim theorems. -/

theorem fromStrConst_not_token (s : String)
    (h : ∀ v : AbiValue, s ≠ v.toStr) : AbiValue.fromStrConst s = none := by
  unfold AbiValue.fromStrConst
  rw [if_neg (show ¬s = "Rust" from h AbiValue.Rust),
    if_neg (show ¬s = "C" from h (AbiValue.C false)),
    if_neg (show ¬s = "C-unwind" from h (AbiValue.C true)),
    if_neg (show ¬s = "system" from h (AbiValue.System false)),
    if_neg (show ¬s = "system-unwind" from h (AbiValue.System true)),
    if_neg (show ¬s = "aapcs" from h (AbiValue.Aapcs false)),
    if_neg (show ¬s = "aapcs-unwind" from h (AbiValue.Aapcs true)),
    if_neg (show ¬s = "cdecl" from h (AbiValue.Cdecl false)),
    if_neg (show ¬s = "cdecl-unwind" from h (AbiValue.Cdecl true)),
    if_neg (show ¬s = "stdcall" from h (AbiValue.Stdcall false)),
    if_neg (show ¬s = "stdcall-unwind" from h (AbiValue.Stdcall true)),
    if_neg (show ¬s = "fastcall" from h (AbiValue.Fastcall false)),
    if_neg (show ¬s = "fastcall-unwind" from h (AbiValue.Fastcall true)),
    if_neg (show ¬s = "thiscall" from h (AbiValue.Thiscall false)),
    if_neg (show ¬s = "thiscall-unwind" from h (AbiValue.Thiscall true)),
    if_neg (show ¬s = "vectorcall" from h (AbiValue.Vectorcall false)),
    if_neg (show ¬s = "vectorcall-unwind" from h (AbiValue.Vectorcall true)),
    if_neg (show ¬s = "sysv64" from h (AbiValue.SysV64 false)),
    if_neg (show ¬s = "sysv64-unwind" from h (AbiValue.SysV64 true)),
    if_neg (show ¬s = "win64" from h (AbiValue.Win64 false)),
    if_neg (show ¬s = "win64-unwind" from h (AbiValue.Win64 true))]

theorem canonize_payload (t : Target) (v w : AbiValue) (hv : Bool)
    (h : AbiValue.canonize t v hv = some w) : w.payloadOf = v.payloadOf := by
  cases v <;> simp only [AbiValue.canonize] at h <;> (try split_ifs at h) <;>
    (injection h with h2; subst h2; rfl)

theorem optionAsResult_some (v : AbiValue) :
    optionAsResult (some v) = Except.ok v :=
  rfl

theorem optionAsResult_none : optionAsResult none = Except.error () :=
  rfl

/-- C1: for every reflected function-pointer type `F`, each of the four
substitutions applied with `F`'s own current attribute is the
identity: `WithAbi<F::Abi>`, `WithSafety<F::Safety>`,
`WithArgs<F::Args>` and `WithOutput<F::Output>` all return `F`. -/
theorem c1_subst_identity {τ : Type} (F : FnPtrTy τ) :
    withAbi F.abi F = F ∧ withSafety F.safety F = F ∧
      withArgs F.args F = F ∧ withOutput F.output F = F := by
  cases F
  exact ⟨rfl, rfl, rfl, rfl⟩

/-- C2: the four substitutions commute pairwise, and applying any
sequence of substitutions yields the function-pointer type determined
solely by the final (safety, abi, args, output) attribute tuple,
independent of the order of application. -/
theorem c2_subst_commutes {τ : Type} :
    (∀ (A : AbiMarker) (S : SafetyM) (F : FnPtrTy τ),
        withAbi A (withSafety S F) = withSafety S (withAbi A F)) ∧
    (∀ (A : AbiMarker) (T : List τ) (F : FnPtrTy τ),
        withAbi A (withArgs T F) = withArgs T (withAbi A F)) ∧
    (∀ (A : AbiMarker) (R : τ) (F : FnPtrTy τ),
        withAbi A (withOutput R F) = withOutput R (withAbi A F)) ∧
    (∀ (S : SafetyM) (T : List τ) (F : FnPtrTy τ),
        withSafety S (withArgs T F) = withArgs T (withSafety S F)) ∧
    (∀ (S : SafetyM) (R : τ) (F : FnPtrTy τ),
        withSafety S (withOutput R F) = withOutput R (withSafety S F)) ∧
    (∀ (T : List τ) (R : τ) (F : FnPtrTy τ),
        withArgs T (withOutput R F) = withOutput R (withArgs T F)) ∧
    (∀ (l : List (Subst τ)) (F : FnPtrTy τ),
        applySubsts l F =
          ⟨finalSafety l F.safety, finalAbi l F.abi,
            finalArgs l F.args, finalOutput l F.output⟩) := by
  refine ⟨fun A S F => rfl, fun A T F => rfl, fun A R F => rfl,
    fun S T F => rfl, fun S R F => rfl, fun T R F => rfl, ?_⟩
  intro l
  induction l with
  | nil => intro F; rfl
  | cons s l ih => intro F; cases s <;> exact ih _

/-- C3: for every one of the 21 `AbiValue`s, parsing its canonical
token yields the value back, and parsing any string that is not a
canonical token fails. -/
theorem c3_parse_roundtrip :
    (∀ v : AbiValue, AbiValue.fromStrConst v.toStr = some v) ∧
    (∀ s : String, (∀ v : AbiValue, s ≠ v.toStr) →
      AbiValue.fromStrConst s = none) :=
  ⟨by decide, fromStrConst_not_token⟩

/-- Witness for C3 at the concrete non-token input `"stdcall64"`. -/
theorem c3_parse_roundtrip_witness :
    (∀ v : AbiValue, "stdcall64" ≠ v.toStr) ∧
      AbiValue.fromStrConst "stdcall64" = none :=
  ⟨by decide, c3_parse_roundtrip.2 "stdcall64" (by decide)⟩

/-- C4 counterexample: parsing the empty string does not return the
Rust ABI; both the const parser and the `FromStr` impl reject `""`. -/
theorem c4_parse_empty_counterexample :
    AbiValue.fromStrConst "" ≠ some AbiValue.Rust ∧
      AbiValue.fromStrRes "" ≠ Except.ok AbiValue.Rust :=
  ⟨by decide,
   fun h => Except.noConfusion
     ((rfl : AbiValue.fromStrRes "" = Except.error ()).symm.trans h)⟩

/-- C4 amended: parsing the empty string fails: `from_str_const("")`
returns `None` and the `FromStr` impl returns `Err(())`; no
empty-string alias for the Rust ABI exists in the token table. -/
theorem c4_parse_empty_fails :
    AbiValue.fromStrConst "" = none ∧
      AbiValue.fromStrRes "" = Except.error () :=
  ⟨by decide, rfl⟩

/-- A row's extern flag holds exactly when the row's ABI value is not
the Rust ABI. -/
theorem isExternRow_iff (m : AbiMarker) :
    isExternRow m = true ↔ m.value ≠ AbiValue.Rust := by
  revert m
  decide

/-- C5: the runtime projections agree with the attribute
decomposition: `arity` is the length of the args tuple, `is_safe`
holds exactly for the `Safe` marker, `is_unsafe` is its negation,
`is_extern` holds exactly when the ABI value is not `Rust`, and `abi`
is the marker's `VALUE` constant. -/
theorem c5_projections {τ : Type} (F : FnPtrTy τ) :
    arityProj F = F.args.length ∧
    (isSafeProj F = true ↔ F.safety = SafetyM.Safe) ∧
    isUnsafeProj F = !isSafeProj F ∧
    (isExternProj F = true ↔ abiProj F ≠ AbiValue.Rust) ∧
    abiProj F = F.abi.value := by
  obtain ⟨s, a, ar, o⟩ := F
  refine ⟨rfl, ?_, rfl, isExternRow_iff a, rfl⟩
  cases s <;> simp [isSafeProj, isSafeConst, SafetyM.isSafeConst]

/-- C6: `allows_unwind` returns `true` for `Rust`, returns the
`unwind` payload for every payload-bearing variant, and hence holds
precisely for `Rust` and for the values whose payload is `true`. -/
theorem c6_allows_unwind :
    AbiValue.allowsUnwind AbiValue.Rust = true ∧
    (∀ u : Bool,
      (AbiValue.C u).allowsUnwind = u ∧
      (AbiValue.System u).allowsUnwind = u ∧
      (AbiValue.Aapcs u).allowsUnwind = u ∧
      (AbiValue.Cdecl u).allowsUnwind = u ∧
      (AbiValue.Stdcall u).allowsUnwind = u ∧
      (AbiValue.Fastcall u).allowsUnwind = u ∧
      (AbiValue.Thiscall u).allowsUnwind = u ∧
      (AbiValue.Vectorcall u).allowsUnwind = u ∧
      (AbiValue.SysV64 u).allowsUnwind = u ∧
      (AbiValue.Win64 u).allowsUnwind = u) ∧
    (∀ v : AbiValue, v.allowsUnwind = true ↔
      (v = AbiValue.Rust ∨ v.payloadOf = some true)) := by
  decide

/-- C7: on every target and for both varargs flags, `canonize` maps
`C{u}` and `Rust` to themselves, and maps `Cdecl{u}` to `C{u}` on any
architecture. -/
theorem c7_canonize_universal_rows (t : Target) (u hv : Bool) :
    AbiValue.canonize t (AbiValue.C u) hv = some (AbiValue.C u) ∧
    AbiValue.canonize t AbiValue.Rust hv = some AbiValue.Rust ∧
    AbiValue.canonize t (AbiValue.Cdecl u) hv = some (AbiValue.C u) := by
  refine ⟨rfl, rfl, ?_⟩
  by_cases h : t.arch_x86 = true <;> simp [AbiValue.canonize, h]

/-- C8: canonicalization preserves the unwind flag: whenever the input
carries payload `u` and `canonize` succeeds, the result is not `Rust`
and carries the same payload `u`; and `canonize` on `Rust` always
yields `Rust`. -/
theorem c8_canonize_preserves_unwind :
    (∀ (t : Target) (hv : Bool),
        AbiValue.canonize t AbiValue.Rust hv = some AbiValue.Rust) ∧
    (∀ (t : Target) (v w : AbiValue) (hv u : Bool),
        v.payloadOf = some u → AbiValue.canonize t v hv = some w →
          w ≠ AbiValue.Rust ∧ w.payloadOf = some u) := by
  refine ⟨fun t hv => rfl, ?_⟩
  intro t v w hv u hp hc
  have hpw := canonize_payload t v w hv hc
  rw [hp] at hpw
  refine ⟨?_, hpw⟩
  intro hw
  subst hw
  exact Option.noConfusion hpw

/-- Witness for C8: `Cdecl{unwind:true}` canonizes to
`C{unwind:true}` on a target with every flag off. -/
theorem c8_canonize_preserves_unwind_witness :
    AbiValue.payloadOf (AbiValue.Cdecl true) = some true ∧
    AbiValue.canonize ⟨false, false, false, false, false, false⟩
      (AbiValue.Cdecl true) false = some (AbiValue.C true) ∧
    (AbiValue.C true ≠ AbiValue.Rust ∧
      AbiValue.payloadOf (AbiValue.C true) = some true) :=
  ⟨by decide, by decide,
    c8_canonize_preserves_unwind.2 ⟨false, false, false, false, false, false⟩
      (AbiValue.Cdecl true) (AbiValue.C true) false true (by decide) (by decide)⟩

/-- C9: reconstructing from a null pointer or address 0 is detected:
the operation aborts (modelled as `none`) instead of returning a
pointer value, while every non-null address is returned intact. -/
theorem c9_from_ptr_null :
    from_ptr 0 = none ∧ from_addr 0 = none ∧
      ∀ p : Nat, p ≠ 0 → from_ptr p = some p :=
  ⟨rfl, rfl, fun _ hp => if_neg hp⟩

/-- Witness for C9 at the concrete non-null address 3. -/
theorem c9_from_ptr_null_witness :
    from_ptr 0 = none ∧ from_addr 0 = none ∧
      ((3 : Nat) ≠ 0 ∧ from_ptr 3 = some 3) :=
  ⟨c9_from_ptr_null.1, c9_from_ptr_null.2.1,
    by decide, c9_from_ptr_null.2.2 3 (by decide)⟩

set_option maxHeartbeats 1000000 in
/-- C10: the const-context parser agrees with the runtime `FromStr`
parser on every input: same successes with the same value, same
failures. -/
theorem c10_const_runtime_parse_agree (s : String) :
    optionAsResult (AbiValue.fromStrConst s) = AbiValue.fromStrRes s := by
  simp only [AbiValue.fromStrConst, AbiValue.fromStrRes,
    apply_ite optionAsResult, optionAsResult_some, optionAsResult_none]
